import Mathlib

/-!
Shallow embedding of the ERC-8004 Agent Registry client of this repository
(`src/apps/web/src/lib/registry.ts`, `src/apps/web/src/lib/constants.ts`,
`src/apps/web/src/hooks/useAgentRegistry.ts`).

JavaScript runtime values flowing through the untyped parts of the client
(contract-call return values, optional fields) are modelled by the inductive
type `Dyn`; thrown JavaScript exceptions are modelled with `Except`.
-/

/-- A JavaScript runtime value as seen by the registry client: the contract
call layer may hand back strings, bigints, booleans, plain objects or arrays,
and property access on a missing key yields `undefined`. -/
inductive Dyn where
  | undefined
  | nullV
  | str (s : String)
  | int (n : Int)
  | bool (b : Bool)
  | obj (fields : List (String × Dyn))
  | arr (elems : List Dyn)
deriving Repr, Inhabited

mutual

/-- Structural boolean equality on `Dyn` values. -/
def Dyn.beq : Dyn → Dyn → Bool
  | .undefined, .undefined => true
  | .nullV, .nullV => true
  | .str a, .str b => a == b
  | .int a, .int b => a == b
  | .bool a, .bool b => a == b
  | .obj a, .obj b => Dyn.beqFields a b
  | .arr a, .arr b => Dyn.beqList a b
  | _, _ => false

/-- Structural boolean equality on object field lists. -/
def Dyn.beqFields : List (String × Dyn) → List (String × Dyn) → Bool
  | [], [] => true
  | (k1, v1) :: t1, (k2, v2) :: t2 => k1 == k2 && Dyn.beq v1 v2 && Dyn.beqFields t1 t2
  | _, _ => false

/-- Structural boolean equality on lists of `Dyn` values. -/
def Dyn.beqList : List Dyn → List Dyn → Bool
  | [], [] => true
  | a :: t1, b :: t2 => Dyn.beq a b && Dyn.beqList t1 t2
  | _, _ => false

end

mutual

/-- `Dyn.beq` decides propositional equality. -/
def Dyn.beq_iff : ∀ (a b : Dyn), Dyn.beq a b = true ↔ a = b
  | .undefined, b => by cases b <;> simp [Dyn.beq]
  | .nullV, b => by cases b <;> simp [Dyn.beq]
  | .str a, b => by cases b <;> simp [Dyn.beq]
  | .int a, b => by cases b <;> simp [Dyn.beq]
  | .bool a, b => by cases b <;> simp [Dyn.beq]
  | .obj a, b => by
      cases b <;> simp [Dyn.beq]
      exact Dyn.beqFields_iff a _
  | .arr a, b => by
      cases b <;> simp [Dyn.beq]
      exact Dyn.beqList_iff a _

/-- `Dyn.beqFields` decides propositional equality. -/
def Dyn.beqFields_iff : ∀ (a b : List (String × Dyn)), Dyn.beqFields a b = true ↔ a = b
  | [], b => by cases b <;> simp [Dyn.beqFields]
  | (k1, v1) :: t1, [] => by simp [Dyn.beqFields]
  | (k1, v1) :: t1, (k2, v2) :: t2 => by
      simp only [Dyn.beqFields, Bool.and_eq_true, beq_iff_eq, List.cons.injEq, Prod.mk.injEq]
      rw [Dyn.beq_iff v1 v2, Dyn.beqFields_iff t1 t2]

/-- `Dyn.beqList` decides propositional equality. -/
def Dyn.beqList_iff : ∀ (a b : List Dyn), Dyn.beqList a b = true ↔ a = b
  | [], b => by cases b <;> simp [Dyn.beqList]
  | a :: t1, [] => by simp [Dyn.beqList]
  | a :: t1, b :: t2 => by
      simp only [Dyn.beqList, Bool.and_eq_true, List.cons.injEq]
      rw [Dyn.beq_iff a b, Dyn.beqList_iff t1 t2]

end

instance : DecidableEq Dyn := fun a b => decidable_of_iff _ (Dyn.beq_iff a b)

/-- JavaScript truthiness of a `Dyn` value (`undefined`, `null`, `false`,
`0n` and the empty string are falsy; objects and arrays are always truthy). -/
def Dyn.truthy : Dyn → Bool
  | .undefined => false
  | .nullV => false
  | .str s => !(s == "")
  | .int n => !(n == 0)
  | .bool b => b
  | .obj _ => true
  | .arr _ => true

/-- JavaScript property read `o[key]` on a plain object: the bound value of
the first matching key, `undefined` when the key is absent. -/
def objGet (fields : List (String × Dyn)) (key : String) : Dyn :=
  match fields.find? (fun p => p.1 == key) with
  | some p => p.2
  | none => .undefined

/-- JavaScript indexed read `a[i]` on an array: `undefined` past the end. -/
def arrGet (elems : List Dyn) (i : Nat) : Dyn :=
  elems.getD i .undefined

/-- JavaScript array spread `[...v]`: succeeds on arrays (copy) and strings
(sequence of one-character strings); any other value is not iterable, so the
spread throws a `TypeError`, modelled by `none`. -/
def spreadDyn : Dyn → Option (List Dyn)
  | .arr l => some l
  | .str s => some (s.data.map (fun c => Dyn.str (String.mk [c])))
  | _ => none

/-- The two supported networks (`SupportedNetwork` in `constants.ts`). -/
inductive SupportedNetwork where
  | arbitrum
  | arbitrumSepolia
deriving Repr, DecidableEq

/-- The all-zero null-deployment sentinel address. -/
def ZERO_ADDRESS : String := "0x0000000000000000000000000000000000000000"

/-- `REGISTRY_CONTRACTS` from `constants.ts`: the arbitrum mainnet entry is
the null-deployment sentinel, the sepolia entry a real address. -/
def REGISTRY_CONTRACTS : SupportedNetwork → String
  | .arbitrum => ZERO_ADDRESS
  | .arbitrumSepolia => "0x517De4c9Afa737A46Dcba61e1548AB3807963094"

/-- Registry address resolution `registryAddress ?? REGISTRY_CONTRACTS[network]`,
performed at the top of every operation in `registry.ts`. -/
def resolveRegistry (network : SupportedNetwork) (registryAddress : Option String) : String :=
  registryAddress.getD (REGISTRY_CONTRACTS network)

/-- `RegistryAgentInfo` (`types.ts`).  The TypeScript field types are mere
`as`-casts with no runtime checking, so every field that is populated from a
raw contract value stays a `Dyn` in the embedding. -/
structure RegistryAgentInfo where
  agentId : Dyn
  owner : Dyn
  name : Dyn
  version : Dyn
  capabilities : Dyn
  stake : Dyn
  reputation : Dyn
  isActive : Dyn
  registeredAt : Dyn
deriving Repr, DecidableEq

/-- `RegistrationStatus` (`types.ts`); an absent `agentInfo` is `none`. -/
structure RegistrationStatus where
  isRegistered : Bool
  agentInfo : Option RegistryAgentInfo
deriving Repr, DecidableEq

/-- One emitted log entry of a transaction receipt. -/
structure Log where
  topics : List String
  data : String
deriving Repr, DecidableEq

/-- A transaction receipt: the ordered list of emitted log entries. -/
structure Receipt where
  logs : List Log
deriving Repr, DecidableEq

/-- The viem `PublicClient` capabilities used by `registry.ts`: a read-only
contract call (contract address, function name, positional arguments) and
inclusion waiting, each either returning a value or throwing a
transport/network fault (carried as a message string). -/
structure PublicClient where
  readContract : String → String → List Dyn → Except String Dyn
  waitForTransactionReceipt : String → Except String Receipt

/-- Normalization of the raw `getAgent` return value into a
`RegistryAgentInfo`, lines 61-91 of `registry.ts`.  The structured branch is
taken when the value is a non-null object with an `owner` property (an array
has no such property); the positional branch when the value is an array; any
other shape yields `none` ({isRegistered:false} in the caller).  In the
structured branch the capability list is copied with an array spread, whose
`TypeError` on a non-iterable value is caught by the surrounding catch — also
`none` here. -/
def normalizeAgent (agentId : Dyn) (agentData : Dyn) : Option RegistryAgentInfo :=
  match agentData with
  | .obj fields =>
    if fields.any (fun p => p.1 == "owner") then
      match spreadDyn (objGet fields "capabilities") with
      | some caps =>
        some {
          agentId := agentId,
          owner := objGet fields "owner",
          name := objGet fields "name",
          version := objGet fields "version",
          capabilities := .arr caps,
          stake := objGet fields "stake",
          reputation := objGet fields "reputation",
          isActive := objGet fields "isActive",
          registeredAt := objGet fields "registeredAt" }
      | none => none
    else none
  | .arr elems =>
    some {
      agentId := agentId,
      owner := arrGet elems 0,
      name := arrGet elems 1,
      version := arrGet elems 2,
      capabilities := arrGet elems 3,
      stake := arrGet elems 4,
      reputation := arrGet elems 5,
      isActive := arrGet elems 6,
      registeredAt := arrGet elems 7 }
  | _ => none

/-- `checkRegistration` (`registry.ts` lines 21-103).  The whole chain
interaction is wrapped in a try/catch whose catch returns
`{isRegistered:false}`, so every transport fault and the normalization
failure degrade to that value; the embedding is a total function. -/
def checkRegistration (publicClient : PublicClient) (network : SupportedNetwork)
    (ownerAddress : Dyn) (registryAddress : Option String) : RegistrationStatus :=
  if resolveRegistry network registryAddress = ZERO_ADDRESS then
    { isRegistered := false, agentInfo := none }
  else
    match publicClient.readContract (resolveRegistry network registryAddress)
        "isAgentRegistered" [ownerAddress] with
    | .error _ => { isRegistered := false, agentInfo := none }
    | .ok isRegistered =>
      if !isRegistered.truthy then { isRegistered := false, agentInfo := none }
      else
        match publicClient.readContract (resolveRegistry network registryAddress)
            "getAgentByOwner" [ownerAddress] with
        | .error _ => { isRegistered := false, agentInfo := none }
        | .ok agentId =>
          match publicClient.readContract (resolveRegistry network registryAddress)
              "getAgent" [agentId] with
          | .error _ => { isRegistered := false, agentInfo := none }
          | .ok agentData =>
            match normalizeAgent agentId agentData with
            | some agentInfo => { isRegistered := true, agentInfo := some agentInfo }
            | none => { isRegistered := false, agentInfo := none }

/-- `getAgentStake` (`registry.ts` lines 317-339).  Unlike `checkRegistration`
there is no try/catch here, so a transport fault of the single read
propagates to the caller; a record of neither decodable shape yields `0n`. -/
def getAgentStake (publicClient : PublicClient) (network : SupportedNetwork)
    (agentId : Dyn) (registryAddress : Option String) : Except String Dyn :=
  match publicClient.readContract (resolveRegistry network registryAddress)
      "getAgent" [agentId] with
  | .error f => .error f
  | .ok agentData =>
    match agentData with
    | .obj fields =>
      if fields.any (fun p => p.1 == "stake") then .ok (objGet fields "stake")
      else .ok (.int 0)
    | .arr elems => .ok (arrGet elems 4)
    | _ => .ok (.int 0)

/-- A thrown JavaScript exception: either an `Error` constructed by the
registry client itself (with its message) or a transport/network fault
propagated from the chain client. -/
inductive JsError where
  | error (msg : String)
  | fault (msg : String)
deriving Repr, DecidableEq

/-- `AgentMetadata` (`types.ts`); the optional `selectedModel` field is not
consulted by any registry operation and is omitted. -/
structure AgentMetadata where
  name : String
  version : String
  capabilities : List String
deriving Repr, DecidableEq

/-- `TransactionResult` (`types.ts`): transaction hash plus the optional
agent identifier extracted from the receipt logs (register only). -/
structure TransactionResult where
  hash : String
  agentId : Option String
deriving Repr, DecidableEq

/-- One `writeContract` invocation as built by `registry.ts`: target
address, function name, positional arguments, optional attached value and
the signing account. -/
structure WriteRequest where
  address : String
  functionName : String
  args : List Dyn
  value : Option Int
  account : String
deriving Repr, DecidableEq

/-- The viem `WalletClient` capabilities used by `registry.ts`: the optional
signing account and transaction submission, which either returns the
transaction hash or throws a transport fault. -/
structure WalletClient where
  account : Option String
  writeContract : WriteRequest → Except String String

/-- JavaScript `String.prototype.toLowerCase` (character-wise lowering). -/
def jsToLower (s : String) : String :=
  String.mk (s.data.map Char.toLower)

/-- The expected event topic computed at line 144 of `registry.ts` by string
concatenation: the literal prefix "0x" glued to the lower-cased event name,
not an event-signature hash. -/
def expectedRegisteredTopic : String :=
  "0x" ++ jsToLower "AgentRegistered"

/-- The per-log matching callback of `receipt.logs.find` in `registerAgent`:
compares the lower-cased first topic (optional chaining yields no match on an
empty topic list) against `expectedRegisteredTopic`. -/
def logMatchesRegistered (log : Log) : Bool :=
  match log.topics.head? with
  | some t => jsToLower t == expectedRegisteredTopic
  | none => false

/-- `registerAgent` (`registry.ts` lines 109-153): precondition checks for
the signing account and the null-deployment sentinel, transaction
submission with attached stake, inclusion wait, then the receipt-log scan
extracting the agent identifier from the second topic of the first matching
log entry. -/
def registerAgent (publicClient : PublicClient) (walletClient : WalletClient)
    (network : SupportedNetwork) (metadata : AgentMetadata) (stakeAmount : Option Int)
    (registryAddress : Option String) : Except JsError TransactionResult :=
  match walletClient.account with
  | none => .error (.error "Wallet not connected")
  | some account =>
    if resolveRegistry network registryAddress = ZERO_ADDRESS then
      .error (.error "Registry contract not deployed on this network")
    else
      match walletClient.writeContract
          { address := resolveRegistry network registryAddress,
            functionName := "registerAgent",
            args := [.str metadata.name, .str metadata.version,
                     .arr (metadata.capabilities.map .str)],
            value := some (stakeAmount.getD 0),
            account := account } with
      | .error f => .error (.fault f)
      | .ok hash =>
        match publicClient.waitForTransactionReceipt hash with
        | .error f => .error (.fault f)
        | .ok receipt =>
          .ok { hash := hash,
                agentId := (receipt.logs.find? logMatchesRegistered).bind
                             (fun l => l.topics.get? 1) }

/-- `updateAgentCapabilities` (`registry.ts` lines 158-185).  Note there is
no null-deployment sentinel check in this function (nor in the four below):
only the signing account is checked before the transaction is submitted. -/
def updateAgentCapabilities (publicClient : PublicClient) (walletClient : WalletClient)
    (network : SupportedNetwork) (agentId : Dyn) (capabilities : List String)
    (registryAddress : Option String) : Except JsError TransactionResult :=
  match walletClient.account with
  | none => .error (.error "Wallet not connected")
  | some account =>
    match walletClient.writeContract
        { address := resolveRegistry network registryAddress,
          functionName := "updateCapabilities",
          args := [agentId, .arr (capabilities.map .str)],
          value := none,
          account := account } with
    | .error f => .error (.fault f)
    | .ok hash =>
      match publicClient.waitForTransactionReceipt hash with
      | .error f => .error (.fault f)
      | .ok _ => .ok { hash := hash, agentId := none }

/-- `addAgentStake` (`registry.ts` lines 190-218): calls `stake(agentId)`
with the amount attached as value. -/
def addAgentStake (publicClient : PublicClient) (walletClient : WalletClient)
    (network : SupportedNetwork) (agentId : Dyn) (amount : Int)
    (registryAddress : Option String) : Except JsError TransactionResult :=
  match walletClient.account with
  | none => .error (.error "Wallet not connected")
  | some account =>
    match walletClient.writeContract
        { address := resolveRegistry network registryAddress,
          functionName := "stake",
          args := [agentId],
          value := some amount,
          account := account } with
    | .error f => .error (.fault f)
    | .ok hash =>
      match publicClient.waitForTransactionReceipt hash with
      | .error f => .error (.fault f)
      | .ok _ => .ok { hash := hash, agentId := none }

/-- `withdrawAgentStake` (`registry.ts` lines 223-250): calls
`withdraw(agentId, amount)` with no attached value. -/
def withdrawAgentStake (publicClient : PublicClient) (walletClient : WalletClient)
    (network : SupportedNetwork) (agentId : Dyn) (amount : Int)
    (registryAddress : Option String) : Except JsError TransactionResult :=
  match walletClient.account with
  | none => .error (.error "Wallet not connected")
  | some account =>
    match walletClient.writeContract
        { address := resolveRegistry network registryAddress,
          functionName := "withdraw",
          args := [agentId, .int amount],
          value := none,
          account := account } with
    | .error f => .error (.fault f)
    | .ok hash =>
      match publicClient.waitForTransactionReceipt hash with
      | .error f => .error (.fault f)
      | .ok _ => .ok { hash := hash, agentId := none }

/-- `deactivateAgent` (`registry.ts` lines 255-281). -/
def deactivateAgent (publicClient : PublicClient) (walletClient : WalletClient)
    (network : SupportedNetwork) (agentId : Dyn)
    (registryAddress : Option String) : Except JsError TransactionResult :=
  match walletClient.account with
  | none => .error (.error "Wallet not connected")
  | some account =>
    match walletClient.writeContract
        { address := resolveRegistry network registryAddress,
          functionName := "deactivateAgent",
          args := [agentId],
          value := none,
          account := account } with
    | .error f => .error (.fault f)
    | .ok hash =>
      match publicClient.waitForTransactionReceipt hash with
      | .error f => .error (.fault f)
      | .ok _ => .ok { hash := hash, agentId := none }

/-- `reactivateAgent` (`registry.ts` lines 286-312). -/
def reactivateAgent (publicClient : PublicClient) (walletClient : WalletClient)
    (network : SupportedNetwork) (agentId : Dyn)
    (registryAddress : Option String) : Except JsError TransactionResult :=
  match walletClient.account with
  | none => .error (.error "Wallet not connected")
  | some account =>
    match walletClient.writeContract
        { address := resolveRegistry network registryAddress,
          functionName := "reactivateAgent",
          args := [agentId],
          value := none,
          account := account } with
    | .error f => .error (.fault f)
    | .ok hash =>
      match publicClient.waitForTransactionReceipt hash with
      | .error f => .error (.fault f)
      | .ok _ => .ok { hash := hash, agentId := none }

/-- `TransactionState` (`types.ts`): the lifecycle tracker value. -/
inductive TxState where
  | idle
  | pending (hash : Option String)
  | success (hash : String)
  | error (e : JsError)
deriving Repr, DecidableEq

/-- The observable state held by `useAgentRegistry` (`useAgentRegistry.ts`
lines 53-56): cached registration status, loading flag, last status-check
fault and the transaction lifecycle tracker. -/
structure HookState where
  status : Option RegistrationStatus
  isLoading : Bool
  error : Option JsError
  txState : TxState
deriving Repr, DecidableEq

/-- One observable state write performed by the hook, in chronological
order; `refreshStarted` marks an invocation of `fetchStatus`. -/
inductive HookEvent where
  | setTxState (t : TxState)
  | setError (e : Option JsError)
  | setStatus (s : Option RegistrationStatus)
  | setIsLoading (b : Bool)
  | refreshStarted
deriving Repr, DecidableEq

/-- The inputs of `useAgentRegistry` (`UseAgentRegistryOptions`): optional
chain clients, network, optional user address and optional registry
override. -/
structure HookEnv where
  publicClient : Option PublicClient
  walletClient : Option WalletClient
  network : SupportedNetwork
  userAddress : Option String
  registryAddress : Option String

/-- The optional chain `status?.agentInfo?.agentId` used in the write-action
guards of the hook: `undefined` when the status or its record is absent. -/
def cachedAgentId (s : HookState) : Dyn :=
  match s.status with
  | none => .undefined
  | some st =>
    match st.agentInfo with
    | none => .undefined
    | some info => info.agentId

/-- `fetchStatus` (`useAgentRegistry.ts` lines 59-82): guard on client and
address, then loading flag, fault reset, status check and loading reset.
`checkRegistration` is total in the embedding (it never throws for reachable
inputs), so the catch branch of `fetchStatus` is unreachable; the function
never touches `txState`. -/
def fetchStatus (env : HookEnv) (s : HookState) : HookState × List HookEvent :=
  match env.publicClient, env.userAddress with
  | some pc, some addr =>
    ({ s with isLoading := false, error := none,
              status := some (checkRegistration pc env.network (.str addr) env.registryAddress) },
     [.setIsLoading true, .setError none,
      .setStatus (some (checkRegistration pc env.network (.str addr) env.registryAddress)),
      .setIsLoading false])
  | _, _ => ({ s with status := none }, [.setStatus none])

/-- The settle step shared verbatim by all six write callbacks of the hook:
on success record the hash and await `fetchStatus`; on failure record the
error into the tracker and the fault slot and rethrow.  (The callbacks'
fallback messages for non-`Error` throwables are dead in the embedding,
where every thrown value is a `JsError`.) -/
def settleAction (env : HookEnv) (s1 : HookState)
    (callResult : Except JsError TransactionResult) :
    HookState × List HookEvent × Except JsError TransactionResult :=
  match callResult with
  | .ok result =>
    let s2 := { s1 with txState := .success result.hash }
    let fs := fetchStatus env s2
    (fs.1, (HookEvent.setTxState (.success result.hash) :: HookEvent.refreshStarted :: fs.2),
     .ok result)
  | .error err =>
    ({ s1 with txState := .error err, error := some err },
     [.setTxState (.error err), .setError (some err)], .error err)

/-- The body shared by every write callback once its guard has passed:
`setTxState({status:'pending'}); setError(null);` synchronously before the
underlying call, then the settle step. -/
def runGuarded (env : HookEnv) (s : HookState)
    (call : Except JsError TransactionResult) :
    HookState × List HookEvent × Except JsError TransactionResult :=
  let out := settleAction env { s with txState := .pending none, error := none } call
  (out.1, (HookEvent.setTxState (.pending none) :: HookEvent.setError none :: out.2.1),
   out.2.2)

/-- The `register` callback (`useAgentRegistry.ts` lines 90-120): guard on
both clients, then the guarded body around `registerAgent`. -/
def registerAction (env : HookEnv) (s : HookState) (metadata : AgentMetadata)
    (stakeAmount : Option Int) :
    HookState × List HookEvent × Except JsError TransactionResult :=
  match env.publicClient, env.walletClient with
  | some pc, some wc =>
    runGuarded env s (registerAgent pc wc env.network metadata stakeAmount env.registryAddress)
  | _, _ => (s, [], .error (.error "Wallet not connected"))

/-- The `updateCapabilities` callback (`useAgentRegistry.ts` lines 123-152):
guard on both clients and a truthy cached agent identifier, then the guarded
body around `updateAgentCapabilities`. -/
def updateCapabilitiesAction (env : HookEnv) (s : HookState) (capabilities : List String) :
    HookState × List HookEvent × Except JsError TransactionResult :=
  match env.publicClient, env.walletClient with
  | some pc, some wc =>
    if (cachedAgentId s).truthy then
      runGuarded env s
        (updateAgentCapabilities pc wc env.network (cachedAgentId s) capabilities
          env.registryAddress)
    else (s, [], .error (.error "Agent not registered or wallet not connected"))
  | _, _ => (s, [], .error (.error "Agent not registered or wallet not connected"))

/-- The `addStake` callback (`useAgentRegistry.ts` lines 155-182). -/
def addStakeAction (env : HookEnv) (s : HookState) (amount : Int) :
    HookState × List HookEvent × Except JsError TransactionResult :=
  match env.publicClient, env.walletClient with
  | some pc, some wc =>
    if (cachedAgentId s).truthy then
      runGuarded env s
        (addAgentStake pc wc env.network (cachedAgentId s) amount env.registryAddress)
    else (s, [], .error (.error "Agent not registered or wallet not connected"))
  | _, _ => (s, [], .error (.error "Agent not registered or wallet not connected"))

/-- The `withdrawStake` callback (`useAgentRegistry.ts` lines 185-212). -/
def withdrawStakeAction (env : HookEnv) (s : HookState) (amount : Int) :
    HookState × List HookEvent × Except JsError TransactionResult :=
  match env.publicClient, env.walletClient with
  | some pc, some wc =>
    if (cachedAgentId s).truthy then
      runGuarded env s
        (withdrawAgentStake pc wc env.network (cachedAgentId s) amount env.registryAddress)
    else (s, [], .error (.error "Agent not registered or wallet not connected"))
  | _, _ => (s, [], .error (.error "Agent not registered or wallet not connected"))

/-- The `deactivate` callback (`useAgentRegistry.ts` lines 215-241). -/
def deactivateAction (env : HookEnv) (s : HookState) :
    HookState × List HookEvent × Except JsError TransactionResult :=
  match env.publicClient, env.walletClient with
  | some pc, some wc =>
    if (cachedAgentId s).truthy then
      runGuarded env s
        (deactivateAgent pc wc env.network (cachedAgentId s) env.registryAddress)
    else (s, [], .error (.error "Agent not registered or wallet not connected"))
  | _, _ => (s, [], .error (.error "Agent not registered or wallet not connected"))

/-- The `reactivate` callback (`useAgentRegistry.ts` lines 244-270). -/
def reactivateAction (env : HookEnv) (s : HookState) :
    HookState × List HookEvent × Except JsError TransactionResult :=
  match env.publicClient, env.walletClient with
  | some pc, some wc =>
    if (cachedAgentId s).truthy then
      runGuarded env s
        (reactivateAgent pc wc env.network (cachedAgentId s) env.registryAddress)
    else (s, [], .error (.error "Agent not registered or wallet not connected"))
  | _, _ => (s, [], .error (.error "Agent not registered or wallet not connected"))

/-- One logical write action of the facade together with its arguments. -/
inductive WriteAction where
  | register (metadata : AgentMetadata) (stakeAmount : Option Int)
  | updateCapabilities (capabilities : List String)
  | addStake (amount : Int)
  | withdrawStake (amount : Int)
  | deactivate
  | reactivate
deriving Repr

/-- Dispatch of a write action to its hook callback. -/
def runAction : WriteAction → HookEnv → HookState →
    HookState × List HookEvent × Except JsError TransactionResult
  | .register md stk, env, s => registerAction env s md stk
  | .updateCapabilities caps, env, s => updateCapabilitiesAction env s caps
  | .addStake amt, env, s => addStakeAction env s amt
  | .withdrawStake amt, env, s => withdrawStakeAction env s amt
  | .deactivate, env, s => deactivateAction env s
  | .reactivate, env, s => reactivateAction env s

/-- Whether a write action's guard also requires a known registration
(every action except `register`). -/
def requiresRegistration : WriteAction → Bool
  | .register _ _ => false
  | _ => true

/-- The message of the `Error` thrown synchronously by a write action's
guard in `useAgentRegistry.ts`. -/
def guardMessage : WriteAction → String
  | .register _ _ => "Wallet not connected"
  | _ => "Agent not registered or wallet not connected"

/-- The chronological sequence of tracker writes within an event trace. -/
def txWrites (events : List HookEvent) : List TxState :=
  events.filterMap (fun e =>
    match e with
    | .setTxState t => some t
    | _ => none)


/-- The call a write action performs against `registry.ts` once its guard
has passed, with the arguments the hook supplies. -/
def underlyingCall : WriteAction → HookEnv → HookState → PublicClient → WalletClient →
    Except JsError TransactionResult
  | .register md stk, env, _, pc, wc =>
    registerAgent pc wc env.network md stk env.registryAddress
  | .updateCapabilities caps, env, s, pc, wc =>
    updateAgentCapabilities pc wc env.network (cachedAgentId s) caps env.registryAddress
  | .addStake amt, env, s, pc, wc =>
    addAgentStake pc wc env.network (cachedAgentId s) amt env.registryAddress
  | .withdrawStake amt, env, s, pc, wc =>
    withdrawAgentStake pc wc env.network (cachedAgentId s) amt env.registryAddress
  | .deactivate, env, s, pc, wc =>
    deactivateAgent pc wc env.network (cachedAgentId s) env.registryAddress
  | .reactivate, env, s, pc, wc =>
    reactivateAgent pc wc env.network (cachedAgentId s) env.registryAddress

/-- A transport fault on one of the three read calls actually reached along
the execution of `checkRegistration` against `registry` for `owner`. -/
def readPathFault (c : PublicClient) (registry : String) (owner : Dyn) : Prop :=
  (∃ f, c.readContract registry "isAgentRegistered" [owner] = .error f) ∨
  (∃ v, c.readContract registry "isAgentRegistered" [owner] = .ok v ∧ v.truthy = true ∧
    ((∃ f, c.readContract registry "getAgentByOwner" [owner] = .error f) ∨
     (∃ aid, c.readContract registry "getAgentByOwner" [owner] = .ok aid ∧
        ∃ f, c.readContract registry "getAgent" [aid] = .error f)))

/-- Hexadecimal digit test for topic well-formedness. -/
def isHexDigitChar (c : Char) : Bool :=
  (decide ('0' ≤ c) && decide (c ≤ '9')) ||
  (decide ('a' ≤ c) && decide (c ≤ 'f')) ||
  (decide ('A' ≤ c) && decide (c ≤ 'F'))

/-- A well-formed 32-byte log topic: the two-character "0x" prefix followed
by exactly 64 hexadecimal digits. -/
def isWellFormedTopic (t : String) : Bool :=
  t.data.length == 66 && t.data.take 2 == ['0', 'x'] && (t.data.drop 2).all isHexDigitChar

/-- A raw agent record decodable by the stated condition of the stake
consistency claim: a structured object containing both the `owner` and
`stake` fields whose `capabilities` value is spreadable, or a positional
array. -/
def decodableByBoth (d : Dyn) : Prop :=
  (∃ fields, d = .obj fields ∧ fields.any (fun p => p.1 == "owner") = true ∧
     fields.any (fun p => p.1 == "stake") = true ∧
     (spreadDyn (objGet fields "capabilities")).isSome = true) ∨
  (∃ elems, d = .arr elems)

/-- A raw agent record of neither shape `getAgentStake` can decode: not a
structured object with a `stake` field and not an array. -/
def stakeUndecodable (d : Dyn) : Prop :=
  (∀ fields, d = .obj fields → fields.any (fun p => p.1 == "stake") = false) ∧
  (∀ elems, d ≠ .arr elems)

/-- A chain read client whose every call throws a transport fault. -/
def faultyPublicClient : PublicClient where
  readContract := fun _ _ _ => .error "network down"
  waitForTransactionReceipt := fun _ => .error "network down"

/-- A chain client that reports every owner as registered, binds it to the
fixed agent id `0xagent1`, returns `agentData` as the full record, and
confirms every transaction with an empty-log receipt. -/
def stubPublicClient (agentData : Dyn) : PublicClient where
  readContract := fun _ fn _ =>
    if fn == "isAgentRegistered" then .ok (.bool true)
    else if fn == "getAgentByOwner" then .ok (.str "0xagent1")
    else .ok agentData
  waitForTransactionReceipt := fun _ => .ok { logs := [] }

/-- A wallet client with an attached account that accepts every submission. -/
def stubWalletClient : WalletClient where
  account := some "0xme"
  writeContract := fun _ => .ok "0xtxhash"

/-- A wallet client with no attached account. -/
def disconnectedWalletClient : WalletClient where
  account := none
  writeContract := fun _ => .ok "0xtxhash"

/-- A structured-object agent record with all eight named fields. -/
def sampleStructuredRecord : Dyn :=
  .obj [("owner", .str "0xowner"), ("name", .str "Agent"), ("version", .str "1.0.0"),
        ("capabilities", .arr [.str "text-generation"]), ("stake", .int 7),
        ("reputation", .int 3), ("isActive", .bool true), ("registeredAt", .int 1700000000)]

/-- The positional-array agent record carrying the same field values as
`sampleStructuredRecord`. -/
def samplePositionalRecord : Dyn :=
  .arr [.str "0xowner", .str "Agent", .str "1.0.0", .arr [.str "text-generation"],
        .int 7, .int 3, .bool true, .int 1700000000]

/-- A structured-object record that contains the `owner` and `stake` fields
but no `capabilities` field, so its array spread throws. -/
def sampleBrokenRecord : Dyn :=
  .obj [("owner", .str "0xowner"), ("stake", .int 7)]

/-- A well-formed 32-byte topic (64 hexadecimal digits after "0x"). -/
def wellFormedTopicA : String :=
  "0x" ++ String.mk (List.replicate 64 'a')

/-- A receipt whose single log entry carries only well-formed hash topics. -/
def hashTopicsReceipt : Receipt :=
  { logs := [{ topics := [wellFormedTopicA, wellFormedTopicA], data := "" }] }

/-- A chain client that confirms every transaction with `hashTopicsReceipt`. -/
def hashTopicsPublicClient : PublicClient where
  readContract := fun _ _ _ => .ok .undefined
  waitForTransactionReceipt := fun _ => .ok hashTopicsReceipt

/-- The hook state before any action (`useAgentRegistry.ts` lines 53-56). -/
def initialHookState : HookState :=
  { status := none, isLoading := false, error := none, txState := .idle }

/-- A hook environment over the arbitrum network, whose registry address is
the null-deployment sentinel, with both clients attached. -/
def envZeroRegistry : HookEnv :=
  { publicClient := some (stubPublicClient sampleStructuredRecord),
    walletClient := some stubWalletClient,
    network := .arbitrum, userAddress := some "0xme", registryAddress := none }

/-- A hook environment on arbitrum-sepolia with both clients attached. -/
def envSepolia : HookEnv :=
  { publicClient := some (stubPublicClient sampleStructuredRecord),
    walletClient := some stubWalletClient,
    network := .arbitrumSepolia, userAddress := some "0xme", registryAddress := none }

/-- A hook environment on arbitrum-sepolia with no wallet client. -/
def envNoWallet : HookEnv :=
  { publicClient := some (stubPublicClient sampleStructuredRecord),
    walletClient := none,
    network := .arbitrumSepolia, userAddress := some "0xme", registryAddress := none }

/-- A hook environment on arbitrum-sepolia whose wallet client is attached
but carries no signing account. -/
def envNoAccount : HookEnv :=
  { publicClient := some (stubPublicClient sampleStructuredRecord),
    walletClient := some disconnectedWalletClient,
    network := .arbitrumSepolia, userAddress := some "0xme", registryAddress := none }

/-- A hook state whose cached status carries a registered record with the
truthy agent id `0xagent1`. -/
def registeredHookState : HookState :=
  { status := some { isRegistered := true,
                     agentInfo := some { agentId := .str "0xagent1", owner := .str "0xowner",
                                         name := .str "Agent", version := .str "1.0.0",
                                         capabilities := .arr [.str "text-generation"],
                                         stake := .int 7, reputation := .int 3,
                                         isActive := .bool true,
                                         registeredAt := .int 1700000000 } },
    isLoading := false, error := none, txState := .idle }

theorem jsToLower_data_length (s : String) : (jsToLower s).data.length = s.data.length := by
  simp [jsToLower]

theorem fetchStatus_txWrites (env : HookEnv) (s : HookState) :
    txWrites (fetchStatus env s).2 = [] := by
  cases hpc : env.publicClient <;> cases hu : env.userAddress <;>
    simp [fetchStatus, hpc, hu, txWrites]

theorem fetchStatus_txState (env : HookEnv) (s : HookState) :
    (fetchStatus env s).1.txState = s.txState := by
  cases hpc : env.publicClient <;> cases hu : env.userAddress <;>
    simp [fetchStatus, hpc, hu]

theorem runGuarded_result (env : HookEnv) (s : HookState)
    (call : Except JsError TransactionResult) :
    (runGuarded env s call).2.2 = call := by
  cases call <;> rfl

theorem runGuarded_take2 (env : HookEnv) (s : HookState)
    (call : Except JsError TransactionResult) :
    (runGuarded env s call).2.1.take 2
      = [HookEvent.setTxState (.pending none), HookEvent.setError none] := by
  cases call <;> rfl

theorem runGuarded_txWrites (env : HookEnv) (s : HookState)
    (call : Except JsError TransactionResult) :
    txWrites (runGuarded env s call).2.1 =
      match call with
      | .ok r => [.pending none, .success r.hash]
      | .error e => [.pending none, .error e] := by
  cases call with
  | ok r =>
    cases hpc : env.publicClient <;> cases hu : env.userAddress <;>
      simp [runGuarded, settleAction, fetchStatus, hpc, hu, txWrites]
  | error e => rfl

theorem runGuarded_txState (env : HookEnv) (s : HookState)
    (call : Except JsError TransactionResult) :
    (runGuarded env s call).1.txState =
      match call with
      | .ok r => TxState.success r.hash
      | .error e => TxState.error e := by
  cases call with
  | ok r =>
    cases hpc : env.publicClient <;> cases hu : env.userAddress <;>
      simp [runGuarded, settleAction, fetchStatus, hpc, hu]
  | error e => rfl

theorem runGuarded_refresh_ok (env : HookEnv) (s : HookState) (r : TransactionResult) :
    HookEvent.refreshStarted ∈ (runGuarded env s (.ok r)).2.1 := by
  simp [runGuarded, settleAction]

theorem runGuarded_refresh_error (env : HookEnv) (s : HookState) (e : JsError) :
    HookEvent.refreshStarted ∉ (runGuarded env s (.error e)).2.1 := by
  simp [runGuarded, settleAction]

theorem runAction_eq_runGuarded (a : WriteAction) (env : HookEnv) (s : HookState)
    (pc : PublicClient) (wc : WalletClient)
    (hpc : env.publicClient = some pc) (hwc : env.walletClient = some wc)
    (hreg : requiresRegistration a = true → (cachedAgentId s).truthy = true) :
    runAction a env s = runGuarded env s (underlyingCall a env s pc wc) := by
  cases a with
  | register md stk => simp [runAction, registerAction, hpc, hwc, underlyingCall]
  | updateCapabilities caps =>
    simp [runAction, updateCapabilitiesAction, hpc, hwc, underlyingCall, hreg rfl]
  | addStake amt =>
    simp [runAction, addStakeAction, hpc, hwc, underlyingCall, hreg rfl]
  | withdrawStake amt =>
    simp [runAction, withdrawStakeAction, hpc, hwc, underlyingCall, hreg rfl]
  | deactivate =>
    simp [runAction, deactivateAction, hpc, hwc, underlyingCall, hreg rfl]
  | reactivate =>
    simp [runAction, reactivateAction, hpc, hwc, underlyingCall, hreg rfl]

theorem underlyingCall_no_account (a : WriteAction) (env : HookEnv) (s : HookState)
    (pc : PublicClient) (wc : WalletClient) (hacct : wc.account = none) :
    underlyingCall a env s pc wc = .error (.error "Wallet not connected") := by
  cases a <;>
    simp [underlyingCall, registerAgent, updateAgentCapabilities, addAgentStake,
      withdrawAgentStake, deactivateAgent, reactivateAgent, hacct]

/-- C1: for every network, owner address and chain-client behavior in which
one of the three read calls actually reached by `checkRegistration`
(registration predicate, agent-id lookup, full-record fetch) throws a
transport fault, the fault is caught and the call returns
`{isRegistered := false}`.  The embedding of `checkRegistration` is a total
function into `RegistrationStatus`, so it never throws for reachable
inputs. -/
theorem checkRegistration_absorbs_transport_faults
    (c : PublicClient) (nw : SupportedNetwork) (owner : Dyn) (ov : Option String)
    (h : readPathFault c (resolveRegistry nw ov) owner) :
    checkRegistration c nw owner ov = { isRegistered := false, agentInfo := none } := by
  unfold checkRegistration
  by_cases hz : resolveRegistry nw ov = ZERO_ADDRESS
  · simp [hz]
  · simp only [if_neg hz]
    rcases h with ⟨f, hf⟩ | ⟨v, hv, htr, ⟨f, hf⟩ | ⟨aid, haid, f, hf⟩⟩
    · simp [hf]
    · simp [hv, htr, hf]
    · simp [hv, htr, haid, hf]

/-- Witness for C1: a client whose every read throws is absorbed. -/
theorem checkRegistration_absorbs_transport_faults_witness :
    readPathFault faultyPublicClient (resolveRegistry .arbitrumSepolia none) (.str "0xowner") ∧
    checkRegistration faultyPublicClient .arbitrumSepolia (.str "0xowner") none
      = { isRegistered := false, agentInfo := none } :=
  ⟨Or.inl ⟨"network down", rfl⟩,
   checkRegistration_absorbs_transport_faults faultyPublicClient .arbitrumSepolia
     (.str "0xowner") none (Or.inl ⟨"network down", rfl⟩)⟩

/-- C2: for a registered owner, `checkRegistration` yields the same result
whether the raw agent record comes back as a structured object with the
eight named fields or as the positional sequence
`[owner, name, version, capabilities, stake, reputation, isActive,
registeredAt]` carrying the same field values (with the capabilities value
an array, as the contract's record declares); and when the raw value has
neither recognizable shape, `checkRegistration` returns
`{isRegistered := false}`. -/
theorem checkRegistration_shape_equivalence
    (c1 c2 c3 : PublicClient) (nw : SupportedNetwork) (owner : Dyn) (ov : Option String)
    (o n v : Dyn) (caps : List Dyn) (s r a t : Dyn) (d : Dyn)
    (hsame1 : c2.readContract (resolveRegistry nw ov) "isAgentRegistered" [owner]
              = c1.readContract (resolveRegistry nw ov) "isAgentRegistered" [owner])
    (hsame2 : c2.readContract (resolveRegistry nw ov) "getAgentByOwner" [owner]
              = c1.readContract (resolveRegistry nw ov) "getAgentByOwner" [owner])
    (hget1 : ∀ aid, c1.readContract (resolveRegistry nw ov) "getAgent" [aid]
              = .ok (.obj [("owner", o), ("name", n), ("version", v),
                           ("capabilities", .arr caps), ("stake", s), ("reputation", r),
                           ("isActive", a), ("registeredAt", t)]))
    (hget2 : ∀ aid, c2.readContract (resolveRegistry nw ov) "getAgent" [aid]
              = .ok (.arr [o, n, v, .arr caps, s, r, a, t]))
    (hd1 : ∀ fields, d = .obj fields → fields.any (fun p => p.1 == "owner") = false)
    (hd2 : ∀ elems, d ≠ .arr elems)
    (hget3 : ∀ aid, c3.readContract (resolveRegistry nw ov) "getAgent" [aid] = .ok d) :
    checkRegistration c1 nw owner ov = checkRegistration c2 nw owner ov ∧
    checkRegistration c3 nw owner ov = { isRegistered := false, agentInfo := none } := by
  constructor
  · unfold checkRegistration
    by_cases hz : resolveRegistry nw ov = ZERO_ADDRESS
    · simp [hz]
    · simp only [if_neg hz, hsame1, hsame2]
      cases h1 : c1.readContract (resolveRegistry nw ov) "isAgentRegistered" [owner] with
      | error f => rfl
      | ok vr =>
        cases htr : vr.truthy with
        | false => simp [htr]
        | true =>
          simp only [htr, Bool.not_true, Bool.false_eq_true, if_false]
          cases h2 : c1.readContract (resolveRegistry nw ov) "getAgentByOwner" [owner] with
          | error f => rfl
          | ok aid =>
            simp only [hget1, hget2]
            rfl
  · unfold checkRegistration
    by_cases hz : resolveRegistry nw ov = ZERO_ADDRESS
    · simp [hz]
    · simp only [if_neg hz]
      cases h1 : c3.readContract (resolveRegistry nw ov) "isAgentRegistered" [owner] with
      | error f => rfl
      | ok vr =>
        cases htr : vr.truthy with
        | false => simp [htr]
        | true =>
          simp only [htr, Bool.not_true, Bool.false_eq_true, if_false]
          cases h2 : c3.readContract (resolveRegistry nw ov) "getAgentByOwner" [owner] with
          | error f => rfl
          | ok aid =>
            have hnone : normalizeAgent aid d = none := by
              cases d with
              | obj fields => simp [normalizeAgent, hd1 fields rfl]
              | arr elems => exact absurd rfl (hd2 elems)
              | undefined => rfl
              | nullV => rfl
              | str s2 => rfl
              | int n2 => rfl
              | bool b2 => rfl
            simp only [hget3, hnone]

/-- Witness for C2: the sample structured and positional records decode to
the same result, and a garbage string degrades to not-registered. -/
theorem checkRegistration_shape_equivalence_witness :
    checkRegistration (stubPublicClient sampleStructuredRecord) .arbitrumSepolia
        (.str "0xowner") none
      = checkRegistration (stubPublicClient samplePositionalRecord) .arbitrumSepolia
        (.str "0xowner") none ∧
    checkRegistration (stubPublicClient (.str "garbage")) .arbitrumSepolia
        (.str "0xowner") none
      = { isRegistered := false, agentInfo := none } :=
  checkRegistration_shape_equivalence
    (stubPublicClient sampleStructuredRecord) (stubPublicClient samplePositionalRecord)
    (stubPublicClient (.str "garbage")) .arbitrumSepolia (.str "0xowner") none
    (.str "0xowner") (.str "Agent") (.str "1.0.0") [.str "text-generation"]
    (.int 7) (.int 3) (.bool true) (.int 1700000000) (.str "garbage")
    rfl rfl (fun _ => rfl) (fun _ => rfl)
    (fun _ hx => nomatch hx) (fun _ hx => nomatch hx) (fun _ => rfl)

/-- C3: the expected event-signature topic `registerAgent` compares each
log's first topic against is built by string concatenation
("0x" glued to the lower-cased event name) rather than an event-signature
hash, so it can never equal any well-formed 32-byte log topic; consequently
every receipt whose log entries carry only well-formed hash topics yields a
`TransactionResult` with `agentId` undefined. -/
theorem registerAgent_concat_topic_never_matches
    (pc : PublicClient) (wc : WalletClient) (nw : SupportedNetwork)
    (md : AgentMetadata) (stk : Option Int) (ov : Option String)
    (acct h : String) (receipt : Receipt)
    (hacct : wc.account = some acct)
    (hz : resolveRegistry nw ov ≠ ZERO_ADDRESS)
    (hw : ∀ req, wc.writeContract req = .ok h)
    (hr : ∀ hh, pc.waitForTransactionReceipt hh = .ok receipt)
    (hlogs : ∀ log ∈ receipt.logs, ∀ tp ∈ log.topics, isWellFormedTopic tp = true) :
    (∀ tp, isWellFormedTopic tp = true → jsToLower tp ≠ expectedRegisteredTopic) ∧
    registerAgent pc wc nw md stk ov = .ok { hash := h, agentId := none } := by
  have key : ∀ tp, isWellFormedTopic tp = true → jsToLower tp ≠ expectedRegisteredTopic := by
    intro tp hwf heq
    have hlen : tp.data.length = 66 := by
      unfold isWellFormedTopic at hwf
      simp only [Bool.and_eq_true, beq_iff_eq] at hwf
      exact hwf.1.1
    have hl2 : (jsToLower tp).data.length = tp.data.length := jsToLower_data_length tp
    rw [heq, hlen] at hl2
    have hexp : expectedRegisteredTopic.data.length = 17 := by decide
    rw [hexp] at hl2
    omega
  refine ⟨key, ?_⟩
  have hfind : receipt.logs.find? logMatchesRegistered = none := by
    rw [List.find?_eq_none]
    intro log hmem
    unfold logMatchesRegistered
    cases hts : log.topics with
    | nil => simp
    | cons tfirst rest =>
      have hwf : isWellFormedTopic tfirst = true :=
        hlogs log hmem tfirst (by rw [hts]; exact List.mem_cons_self _ _)
      simp only [List.head?_cons, Bool.not_eq_true, beq_eq_false_iff_ne, ne_eq]
      exact key tfirst hwf
  unfold registerAgent
  simp only [hacct, if_neg hz, hw, hr, hfind, Option.none_bind]

/-- Witness for C3: a receipt carrying only 64-hex-digit topics leaves the
agent id undefined. -/
theorem registerAgent_concat_topic_never_matches_witness :
    isWellFormedTopic wellFormedTopicA = true ∧
    registerAgent hashTopicsPublicClient stubWalletClient .arbitrumSepolia
      { name := "Agent", version := "1.0.0", capabilities := ["text-generation"] }
      none none = .ok { hash := "0xtxhash", agentId := none } :=
  ⟨by decide,
   (registerAgent_concat_topic_never_matches hashTopicsPublicClient stubWalletClient
     .arbitrumSepolia
     { name := "Agent", version := "1.0.0", capabilities := ["text-generation"] }
     none none "0xme" "0xtxhash" hashTopicsReceipt rfl (by decide)
     (fun _ => rfl) (fun _ => rfl) (by decide)).2⟩

/-- Counterexample for C4 as stated: on the arbitrum network the resolved
registry address is the null-deployment sentinel, yet
`updateAgentCapabilities` does not fail with a configuration error — it
submits the transaction (to the zero address) and returns its hash. -/
theorem zero_registry_write_counterexample :
    REGISTRY_CONTRACTS SupportedNetwork.arbitrum = ZERO_ADDRESS ∧
    updateAgentCapabilities (stubPublicClient sampleStructuredRecord) stubWalletClient
      .arbitrum (.str "0xagent1") ["text-generation"] none
      = .ok { hash := "0xtxhash", agentId := none } :=
  ⟨rfl, rfl⟩

/-- C4 (amended): when the resolved registry address is the null-deployment
sentinel, `checkRegistration` returns `{isRegistered := false}` for every
chain-client behavior (it never consults the client), and `registerAgent`
fails with the configuration error before submitting; but the other five
write actions (`updateCapabilities`, `stake`, `withdraw`, `deactivateAgent`,
`reactivateAgent`) perform no sentinel check and submit the transaction to
the zero address. -/
theorem zero_registry_behavior
    (pc : PublicClient) (wc : WalletClient) (nw : SupportedNetwork) (ov : Option String)
    (owner aid : Dyn) (md : AgentMetadata) (stk : Option Int)
    (caps : List String) (amt : Int) (acct h : String) (receipt : Receipt)
    (hz : resolveRegistry nw ov = ZERO_ADDRESS)
    (hacct : wc.account = some acct)
    (hw : ∀ req, wc.writeContract req = .ok h)
    (hr : ∀ hh, pc.waitForTransactionReceipt hh = .ok receipt) :
    checkRegistration pc nw owner ov = { isRegistered := false, agentInfo := none } ∧
    registerAgent pc wc nw md stk ov
      = .error (.error "Registry contract not deployed on this network") ∧
    updateAgentCapabilities pc wc nw aid caps ov = .ok { hash := h, agentId := none } ∧
    addAgentStake pc wc nw aid amt ov = .ok { hash := h, agentId := none } ∧
    withdrawAgentStake pc wc nw aid amt ov = .ok { hash := h, agentId := none } ∧
    deactivateAgent pc wc nw aid ov = .ok { hash := h, agentId := none } ∧
    reactivateAgent pc wc nw aid ov = .ok { hash := h, agentId := none } := by
  refine ⟨?_, ?_, ?_, ?_, ?_, ?_, ?_⟩ <;>
    simp [checkRegistration, registerAgent, updateAgentCapabilities, addAgentStake,
      withdrawAgentStake, deactivateAgent, reactivateAgent, hz, hacct, hw, hr]

/-- Witness for C4 (amended), at the concrete arbitrum network whose
configured registry address is the sentinel. -/
theorem zero_registry_behavior_witness :
    resolveRegistry .arbitrum none = ZERO_ADDRESS ∧
    checkRegistration (stubPublicClient sampleStructuredRecord) .arbitrum
        (.str "0xowner") none = { isRegistered := false, agentInfo := none } ∧
    registerAgent (stubPublicClient sampleStructuredRecord) stubWalletClient .arbitrum
        { name := "Agent", version := "1.0.0", capabilities := ["text-generation"] }
        none none
      = .error (.error "Registry contract not deployed on this network") :=
  ⟨rfl,
   (zero_registry_behavior (stubPublicClient sampleStructuredRecord) stubWalletClient
     .arbitrum none (.str "0xowner") (.str "0xagent1")
     { name := "Agent", version := "1.0.0", capabilities := ["text-generation"] }
     none ["text-generation"] 1 "0xme" "0xtxhash" { logs := [] }
     rfl rfl (fun _ => rfl) (fun _ => rfl)).1,
   (zero_registry_behavior (stubPublicClient sampleStructuredRecord) stubWalletClient
     .arbitrum none (.str "0xowner") (.str "0xagent1")
     { name := "Agent", version := "1.0.0", capabilities := ["text-generation"] }
     none ["text-generation"] 1 "0xme" "0xtxhash" { logs := [] }
     rfl rfl (fun _ => rfl) (fun _ => rfl)).2.1⟩

/-- C5: for every write action whose preconditions hold (both clients
attached and, for the non-register actions, a truthy cached agent id), the
observable tracker sequence is exactly pending followed by the settled
state: the first two state writes are the synchronous
`setTxState pending` and `setError null` performed before any asynchronous
work, and the tracker writes of the whole invocation are exactly
`[pending, success hash]` (with the result carrying that hash) or
`[pending, error e]` (with the call failing with `e`); in particular there
is no transition from idle directly to success or error. -/
theorem txState_transition_sequence
    (a : WriteAction) (env : HookEnv) (s : HookState)
    (pc : PublicClient) (wc : WalletClient)
    (hpc : env.publicClient = some pc) (hwc : env.walletClient = some wc)
    (hreg : requiresRegistration a = true → (cachedAgentId s).truthy = true) :
    (runAction a env s).2.1.take 2
      = [HookEvent.setTxState (.pending none), HookEvent.setError none] ∧
    ((∃ res, (runAction a env s).2.2 = .ok res ∧
        txWrites (runAction a env s).2.1 = [.pending none, .success res.hash]) ∨
     (∃ e, (runAction a env s).2.2 = .error e ∧
        txWrites (runAction a env s).2.1 = [.pending none, .error e])) := by
  rw [runAction_eq_runGuarded a env s pc wc hpc hwc hreg]
  refine ⟨runGuarded_take2 env s _, ?_⟩
  rw [runGuarded_result, runGuarded_txWrites]
  cases underlyingCall a env s pc wc with
  | ok r => exact Or.inl ⟨r, rfl, rfl⟩
  | error e => exact Or.inr ⟨e, rfl, rfl⟩

/-- Witness for C5: a successful `register` on arbitrum-sepolia. -/
theorem txState_transition_sequence_witness :
    (runAction (.register ⟨"Agent", "1.0.0", ["text-generation"]⟩ none)
        envSepolia initialHookState).2.1.take 2
      = [HookEvent.setTxState (.pending none), HookEvent.setError none] ∧
    ((∃ res, (runAction (.register ⟨"Agent", "1.0.0", ["text-generation"]⟩ none)
          envSepolia initialHookState).2.2 = .ok res ∧
        txWrites (runAction (.register ⟨"Agent", "1.0.0", ["text-generation"]⟩ none)
          envSepolia initialHookState).2.1 = [.pending none, .success res.hash]) ∨
     (∃ e, (runAction (.register ⟨"Agent", "1.0.0", ["text-generation"]⟩ none)
          envSepolia initialHookState).2.2 = .error e ∧
        txWrites (runAction (.register ⟨"Agent", "1.0.0", ["text-generation"]⟩ none)
          envSepolia initialHookState).2.1 = [.pending none, .error e])) :=
  txState_transition_sequence (.register ⟨"Agent", "1.0.0", ["text-generation"]⟩ none)
    envSepolia initialHookState (stubPublicClient sampleStructuredRecord) stubWalletClient
    rfl rfl (fun hcon => nomatch hcon)

/-- Counterexample for C6 as stated: a `register` invocation on the
arbitrum network settles in the error state (the tracker ends in `error`),
yet no Read Path refresh is triggered — the refresh runs only on the
success path of the hook callbacks. -/
theorem settle_refresh_counterexample :
    (runAction (.register ⟨"Agent", "1.0.0", ["text-generation"]⟩ none)
        envZeroRegistry initialHookState).2.2
      = .error (.error "Registry contract not deployed on this network") ∧
    (runAction (.register ⟨"Agent", "1.0.0", ["text-generation"]⟩ none)
        envZeroRegistry initialHookState).1.txState
      = .error (.error "Registry contract not deployed on this network") ∧
    HookEvent.refreshStarted ∉
      (runAction (.register ⟨"Agent", "1.0.0", ["text-generation"]⟩ none)
        envZeroRegistry initialHookState).2.1 :=
  ⟨rfl, rfl, by decide⟩

/-- C6 (amended): for every write action whose preconditions hold, if the
action settles in the success state then the tracker triggers a Read Path
refresh and the refresh (which never throws, since `checkRegistration` is
total and `fetchStatus` does not touch the tracker) leaves the settled
success state unchanged; if the action settles in the error state, the
settled error state is likewise final, and no refresh is triggered. -/
theorem settle_refresh_behavior
    (a : WriteAction) (env : HookEnv) (s : HookState)
    (pc : PublicClient) (wc : WalletClient)
    (hpc : env.publicClient = some pc) (hwc : env.walletClient = some wc)
    (hreg : requiresRegistration a = true → (cachedAgentId s).truthy = true) :
    (∀ res, (runAction a env s).2.2 = .ok res →
        HookEvent.refreshStarted ∈ (runAction a env s).2.1 ∧
        (runAction a env s).1.txState = .success res.hash) ∧
    (∀ e, (runAction a env s).2.2 = .error e →
        HookEvent.refreshStarted ∉ (runAction a env s).2.1 ∧
        (runAction a env s).1.txState = .error e) := by
  rw [runAction_eq_runGuarded a env s pc wc hpc hwc hreg]
  constructor
  · intro res hres
    rw [runGuarded_result] at hres
    rw [hres]
    exact ⟨runGuarded_refresh_ok env s res, by rw [runGuarded_txState]⟩
  · intro e he
    rw [runGuarded_result] at he
    rw [he]
    exact ⟨runGuarded_refresh_error env s e, by rw [runGuarded_txState]⟩

/-- Witness for C6 (amended): a successful `addStake` from a registered
cached state triggers the refresh and keeps the success state. -/
theorem settle_refresh_behavior_witness :
    HookEvent.refreshStarted ∈
      (runAction (.addStake 5) envSepolia registeredHookState).2.1 ∧
    (runAction (.addStake 5) envSepolia registeredHookState).1.txState
      = .success "0xtxhash" :=
  (settle_refresh_behavior (.addStake 5) envSepolia registeredHookState
      (stubPublicClient sampleStructuredRecord) stubWalletClient
      rfl rfl (fun _ => rfl)).1
    { hash := "0xtxhash", agentId := none } rfl

/-- Counterexample for C7 as stated: with a wallet client attached whose
account is absent — a case the claim covers ("wallet client or its account
absent") — a `register` invocation passes the hook guard and writes
`pending` into the tracker before the write function's account check throws
`Error("Wallet not connected")`, so the `TransactionState` IS transitioned:
the tracker writes are `[pending, error]` and the tracker settles in the
error state. -/
theorem no_signer_pending_counterexample :
    (runAction (.register ⟨"Agent", "1.0.0", ["text-generation"]⟩ none)
        envNoAccount initialHookState).2.2 = .error (.error "Wallet not connected") ∧
    txWrites (runAction (.register ⟨"Agent", "1.0.0", ["text-generation"]⟩ none)
        envNoAccount initialHookState).2.1
      = [.pending none, .error (.error "Wallet not connected")] ∧
    (runAction (.register ⟨"Agent", "1.0.0", ["text-generation"]⟩ none)
        envNoAccount initialHookState).1.txState
      = .error (.error "Wallet not connected") :=
  ⟨rfl, rfl, rfl⟩

/-- C7 (amended): a write action invoked with the wallet client itself
absent fails synchronously with the guard's thrown error — the
`NotConnectedError` of the design — before any tracker transition or
network interaction: the hook state is returned unchanged and the event
trace is empty.  A write action invoked with a wallet client attached but
its account absent instead passes the hook guard: the tracker is first
placed into pending, then the write function's account check throws
`Error("Wallet not connected")` before any transaction submission (the
outcome is the same for every submission behavior of the client), and the
tracker settles in the error state. -/
theorem no_signer_behavior (a : WriteAction) (env : HookEnv) (s : HookState) :
    (env.walletClient = none →
      runAction a env s = (s, [], .error (.error (guardMessage a)))) ∧
    (∀ pc wc, env.publicClient = some pc → env.walletClient = some wc →
      wc.account = none →
      (requiresRegistration a = true → (cachedAgentId s).truthy = true) →
      (runAction a env s).2.2 = .error (.error "Wallet not connected") ∧
      txWrites (runAction a env s).2.1
        = [.pending none, .error (.error "Wallet not connected")] ∧
      (runAction a env s).1.txState = .error (.error "Wallet not connected")) := by
  constructor
  · intro hwc
    cases a <;> cases hpc : env.publicClient <;>
      simp [runAction, registerAction, updateCapabilitiesAction, addStakeAction,
        withdrawStakeAction, deactivateAction, reactivateAction, guardMessage, hpc, hwc]
  · intro pc wc hpc hwc hacct hreg
    rw [runAction_eq_runGuarded a env s pc wc hpc hwc hreg,
        underlyingCall_no_account a env s pc wc hacct]
    exact ⟨by rw [runGuarded_result], by rw [runGuarded_txWrites],
           by rw [runGuarded_txState]⟩

/-- Witness for C7 (amended): `deactivate` without a wallet client leaves
the state untouched, while `register` with an account-less wallet client
settles the tracker in the error state. -/
theorem no_signer_behavior_witness :
    runAction .deactivate envNoWallet registeredHookState
      = (registeredHookState, [],
         .error (.error "Agent not registered or wallet not connected")) ∧
    (runAction (.register ⟨"Agent", "1.0.0", ["text-generation"]⟩ none)
        envNoAccount initialHookState).1.txState
      = .error (.error "Wallet not connected") :=
  ⟨(no_signer_behavior .deactivate envNoWallet registeredHookState).1 rfl,
   ((no_signer_behavior (.register ⟨"Agent", "1.0.0", ["text-generation"]⟩ none)
       envNoAccount initialHookState).2 (stubPublicClient sampleStructuredRecord)
       disconnectedWalletClient rfl rfl rfl (fun hcon => nomatch hcon)).2.2⟩

/-- C9: every write action that requires a known registration
(`updateCapabilities`, `addStake`, `withdrawStake`, `deactivate`,
`reactivate`), invoked while the cached `RegistrationStatus` holds no truthy
agent id, fails synchronously with the guard's thrown error — the
`NotRegisteredError` of the design — before any tracker transition or
network interaction: the state is unchanged, the trace is empty, and the
result does not depend on the attached clients. -/
theorem not_registered_guard (a : WriteAction) (env : HookEnv) (s : HookState)
    (hreq : requiresRegistration a = true)
    (hid : (cachedAgentId s).truthy = false) :
    runAction a env s
      = (s, [], .error (.error "Agent not registered or wallet not connected")) := by
  cases a with
  | register md stk => simp [requiresRegistration] at hreq
  | updateCapabilities caps =>
    cases hpc : env.publicClient <;> cases hwc : env.walletClient <;>
      simp [runAction, updateCapabilitiesAction, hpc, hwc, hid]
  | addStake amt =>
    cases hpc : env.publicClient <;> cases hwc : env.walletClient <;>
      simp [runAction, addStakeAction, hpc, hwc, hid]
  | withdrawStake amt =>
    cases hpc : env.publicClient <;> cases hwc : env.walletClient <;>
      simp [runAction, withdrawStakeAction, hpc, hwc, hid]
  | deactivate =>
    cases hpc : env.publicClient <;> cases hwc : env.walletClient <;>
      simp [runAction, deactivateAction, hpc, hwc, hid]
  | reactivate =>
    cases hpc : env.publicClient <;> cases hwc : env.walletClient <;>
      simp [runAction, reactivateAction, hpc, hwc, hid]

/-- Witness for C9: `deactivate` with no cached registration. -/
theorem not_registered_guard_witness :
    requiresRegistration .deactivate = true ∧
    (cachedAgentId initialHookState).truthy = false ∧
    runAction .deactivate envSepolia initialHookState
      = (initialHookState, [],
         .error (.error "Agent not registered or wallet not connected")) :=
  ⟨rfl, rfl, not_registered_guard .deactivate envSepolia initialHookState rfl rfl⟩

/-- C8: a `register` invocation whose transaction receipt contains no log
entry matching the expected agent-registered event signature returns a
`TransactionResult` that still carries the transaction hash but has
`agentId` undefined, and the overall call completes successfully: the
tracker settles in the success state rather than raising an error. -/
theorem register_without_matching_log
    (env : HookEnv) (s : HookState) (md : AgentMetadata) (stk : Option Int)
    (pc : PublicClient) (wc : WalletClient) (acct h : String) (receipt : Receipt)
    (hpc : env.publicClient = some pc) (hwc : env.walletClient = some wc)
    (hacct : wc.account = some acct)
    (hz : resolveRegistry env.network env.registryAddress ≠ ZERO_ADDRESS)
    (hw : ∀ req, wc.writeContract req = .ok h)
    (hr : ∀ hh, pc.waitForTransactionReceipt hh = .ok receipt)
    (hlogs : ∀ log ∈ receipt.logs, logMatchesRegistered log = false) :
    (runAction (.register md stk) env s).2.2 = .ok { hash := h, agentId := none } ∧
    (runAction (.register md stk) env s).1.txState = .success h := by
  have hu : underlyingCall (.register md stk) env s pc wc
      = .ok { hash := h, agentId := none } := by
    show registerAgent pc wc env.network md stk env.registryAddress
      = .ok { hash := h, agentId := none }
    have hfind : receipt.logs.find? logMatchesRegistered = none := by
      rw [List.find?_eq_none]
      intro log hmem
      simp [hlogs log hmem]
    unfold registerAgent
    simp only [hacct, if_neg hz, hw, hr, hfind, Option.none_bind]
  rw [runAction_eq_runGuarded (.register md stk) env s pc wc hpc hwc
    (fun hcon => nomatch hcon), hu]
  exact ⟨by rw [runGuarded_result], by rw [runGuarded_txState]⟩

/-- Witness for C8: a register whose receipt has no logs at all. -/
theorem register_without_matching_log_witness :
    (runAction (.register ⟨"Agent", "1.0.0", ["text-generation"]⟩ none)
        envSepolia initialHookState).2.2
      = .ok { hash := "0xtxhash", agentId := none } ∧
    (runAction (.register ⟨"Agent", "1.0.0", ["text-generation"]⟩ none)
        envSepolia initialHookState).1.txState = .success "0xtxhash" :=
  register_without_matching_log envSepolia initialHookState
    ⟨"Agent", "1.0.0", ["text-generation"]⟩ none
    (stubPublicClient sampleStructuredRecord) stubWalletClient "0xme" "0xtxhash"
    { logs := [] } rfl rfl rfl (by decide) (fun _ => rfl) (fun _ => rfl)
    (fun _ hmem => absurd hmem (List.not_mem_nil _))

/-- Counterexample for C10 as stated: a raw record that is a structured
object containing both the `owner` and `stake` fields (so both readers take
their structured branch) on which `getAgentStake` returns the stake value 7,
while `checkRegistration` on the same record produces no `AgentRecord` at
all — its capabilities spread throws, which the catch degrades to
`{isRegistered := false}` — so the two stake readings cannot agree. -/
theorem getAgentStake_inconsistency_counterexample :
    getAgentStake (stubPublicClient sampleBrokenRecord) .arbitrumSepolia
      (.str "0xagent1") none = .ok (.int 7) ∧
    checkRegistration (stubPublicClient sampleBrokenRecord) .arbitrumSepolia
      (.str "0xowner") none = { isRegistered := false, agentInfo := none } :=
  ⟨rfl, rfl⟩

/-- C10 (amended): for every raw agent record both functions can decode —
a structured object containing the `owner` and `stake` fields whose
`capabilities` value is spreadable, or a positional array — the stake
returned by `getAgentStake` equals the `stake` field of the `AgentRecord`
produced by `checkRegistration` on the same record (the named `stake` field
in the structured case, index 4 in the positional case); and on a record of
neither shape `getAgentStake` returns zero. -/
theorem getAgentStake_matches_checkRegistration
    (pc : PublicClient) (nw : SupportedNetwork) (owner v aid d : Dyn) (ov : Option String)
    (hz : resolveRegistry nw ov ≠ ZERO_ADDRESS)
    (h1 : pc.readContract (resolveRegistry nw ov) "isAgentRegistered" [owner] = .ok v)
    (hv : v.truthy = true)
    (h2 : pc.readContract (resolveRegistry nw ov) "getAgentByOwner" [owner] = .ok aid)
    (h3 : pc.readContract (resolveRegistry nw ov) "getAgent" [aid] = .ok d) :
    (decodableByBoth d →
      ∃ info, (checkRegistration pc nw owner ov).agentInfo = some info ∧
        getAgentStake pc nw aid ov = .ok info.stake) ∧
    (stakeUndecodable d → getAgentStake pc nw aid ov = .ok (.int 0)) := by
  constructor
  · intro hd
    rcases hd with ⟨fields, hdf, howner, hstake, hspread⟩ | ⟨elems, hde⟩
    · subst hdf
      rcases Option.isSome_iff_exists.mp hspread with ⟨caps, hcaps⟩
      refine ⟨{ agentId := aid, owner := objGet fields "owner",
                name := objGet fields "name", version := objGet fields "version",
                capabilities := .arr caps, stake := objGet fields "stake",
                reputation := objGet fields "reputation",
                isActive := objGet fields "isActive",
                registeredAt := objGet fields "registeredAt" }, ?_, ?_⟩
      · unfold checkRegistration
        simp only [if_neg hz, h1, hv, h2, h3, normalizeAgent, howner, hcaps,
          Bool.not_true, Bool.false_eq_true, if_false, if_true]
      · unfold getAgentStake
        simp only [h3, hstake, if_true]
    · subst hde
      refine ⟨{ agentId := aid, owner := arrGet elems 0, name := arrGet elems 1,
                version := arrGet elems 2, capabilities := arrGet elems 3,
                stake := arrGet elems 4, reputation := arrGet elems 5,
                isActive := arrGet elems 6, registeredAt := arrGet elems 7 }, ?_, ?_⟩
      · unfold checkRegistration
        simp only [if_neg hz, h1, hv, h2, h3, normalizeAgent,
          Bool.not_true, Bool.false_eq_true, if_false]
      · unfold getAgentStake
        simp only [h3]
  · rintro ⟨hobj, harr⟩
    unfold getAgentStake
    simp only [h3]
    cases d with
    | obj fields => simp [hobj fields rfl]
    | arr elems => exact absurd rfl (harr elems)
    | undefined => rfl
    | nullV => rfl
    | str s2 => rfl
    | int n2 => rfl
    | bool b2 => rfl

/-- Witness for C10 (amended): the sample positional record, on which both
readers yield the stake value 7, and a plain string record, on which
`getAgentStake` yields zero. -/
theorem getAgentStake_matches_checkRegistration_witness :
    (decodableByBoth samplePositionalRecord →
      ∃ info, (checkRegistration (stubPublicClient samplePositionalRecord)
          .arbitrumSepolia (.str "0xowner") none).agentInfo = some info ∧
        getAgentStake (stubPublicClient samplePositionalRecord) .arbitrumSepolia
          (.str "0xagent1") none = .ok info.stake) ∧
    (stakeUndecodable samplePositionalRecord →
      getAgentStake (stubPublicClient samplePositionalRecord) .arbitrumSepolia
        (.str "0xagent1") none = .ok (.int 0)) :=
  getAgentStake_matches_checkRegistration
    (stubPublicClient samplePositionalRecord) .arbitrumSepolia
    (.str "0xowner") (.bool true) (.str "0xagent1") samplePositionalRecord none
    (by decide) rfl rfl rfl rfl
